import Mathlib

/-!
Verification development for the aionyx dataset-profiling engine.

The Python services under `app/services` are shallowly embedded here:

* `statistical_engine.py` — `detect_outliers_iqr`, `analyze_skewness`,
  `analyze_variability`, `compute_correlations`, `run_statistical_analysis`;
* `profiler.py` — `analyze_dataset` (with the pydantic record types of
  `app/schemas/profile.py`);
* `ai_analyst.py` — `calculate_data_confidence`.

Modelling conventions:

* A pandas numeric column is `List (Option ℚ)` — `none` is a missing cell
  (`NaN`); a text (`object`) column is `List (Option String)`.  Machine
  floats are embedded as exact rationals; `round` is modelled as round half
  away from zero (Python rounds binary floats half to even; the two agree
  except on exact half-way ties, which no statement below touches).
* A Python value that may be `None`, float `nan`, or a float number is
  embedded as `PyVal`.
* Library kernels that produce irrational reals are handled as follows:
  the sample standard deviation `√var` never flows into a control decision
  except through order comparisons against rationals, which are embedded by
  the equivalent squared comparisons (squaring is strictly monotone on
  nonnegatives); the reported values `round(√x, 2)` are computed exactly via
  integer square roots.  The two genuinely irrational library kernels whose
  raw values the repository merely passes through — the adjusted
  Fisher-Pearson skewness coefficient of `Series.skew` in its
  non-degenerate case and the Pearson matrix of `DataFrame.corr` — are
  supplied as explicit oracle parameters (`sk`, `corrO`); every branch the
  repository itself takes on those values is embedded faithfully.
-/

namespace Aionyx

/-- Embedding of a Python value that is either `None`, the float `nan`, or a
real (here: rational) float value. -/
inductive PyVal where
  | none
  | nan
  | num (q : ℚ)
deriving DecidableEq, Repr

/-- Non-missing entries of a numeric column, in order (pandas `dropna`). -/
def nonMissing (xs : List (Option ℚ)) : List ℚ :=
  xs.filterMap id

/-- Arithmetic mean of a list of rationals (meaningful only when nonempty;
pandas `Series.mean` over the non-missing entries). -/
def meanQ (v : List ℚ) : ℚ :=
  v.sum / v.length

/-- Second central moment `Σ (x - mean)²` (the `m2` of pandas `nanskew`). -/
def m2Q (v : List ℚ) : ℚ :=
  (v.map (fun x => (x - meanQ v) ^ 2)).sum

/-- Sample variance with `ddof = 1` (pandas `Series.var`); meaningful only
when the list has at least two entries. -/
def sampleVar (v : List ℚ) : ℚ :=
  m2Q v / ((v.length : ℚ) - 1)

/-- Insert a value into an ascending list, keeping it ascending. -/
def insertAsc (x : ℚ) : List ℚ → List ℚ
  | [] => [x]
  | y :: ys => if x ≤ y then x :: y :: ys else y :: insertAsc x ys

/-- Insertion sort into ascending order (the order `numpy` sorting gives a
list of distinct-or-equal rationals; only the sorted sequence matters). -/
def sortQ (xs : List ℚ) : List ℚ :=
  xs.foldr insertAsc []

/-- Linear-interpolation quantile of pandas `Series.quantile` over the
non-missing values: position `q·(n-1)` in the ascending sequence, linearly
interpolated; `none` when there are no values (pandas returns `NaN`). -/
def pdQuantile (q : ℚ) (xs : List ℚ) : Option ℚ :=
  match xs with
  | [] => Option.none
  | _ :: _ =>
    let s := sortQ xs
    let pos : ℚ := q * ((s.length : ℚ) - 1)
    let lo : ℕ := (⌊pos⌋).toNat
    let frac : ℚ := pos - (lo : ℚ)
    some (s.getD lo 0 + frac * (s.getD (lo + 1) (s.getD lo 0) - s.getD lo 0))

/-- Python `round(x, 2)`, embedded as round half away from zero on exact
rationals. -/
def round2 (x : ℚ) : ℚ :=
  (round (x * 100) : ℚ) / 100

/-- Python `round(x, 1)`. -/
def round1 (x : ℚ) : ℚ :=
  (round (x * 10) : ℚ) / 10

/-- Integer nearest to `√y` for `0 ≤ y : ℚ` (round half up): the unique `k`
with `(k - 1/2)² ≤ y < (k + 1/2)²`, computed from `Nat.sqrt ⌊y⌋`. -/
def roundSqrt (y : ℚ) : ℕ :=
  let m := Nat.sqrt (⌊y⌋).toNat
  if 4 * y < ((2 * m + 1 : ℕ) : ℚ) ^ 2 then m else m + 1

/-- Exact value of `round(√x, 2)` for `0 ≤ x`: `round(100·√x)/100` with
`100·√x = √(10000·x)`. -/
def rnd2sqrt (x : ℚ) : ℚ :=
  ((roundSqrt (10000 * x) : ℕ) : ℚ) / 100

/-- Whether the character list `p` is an initial run of `s`. -/
def startsWithL : List Char → List Char → Bool
  | [], _ => true
  | _ :: _, [] => false
  | p :: ps, c :: cs => p == c && startsWithL ps cs

/-- Whether the character list `p` occurs contiguously inside `s`. -/
def containsL (p : List Char) : List Char → Bool
  | [] => startsWithL p []
  | c :: cs => startsWithL p (c :: cs) || containsL p cs

/-- Python substring test `pat in s`. -/
def strContains (s pat : String) : Bool :=
  containsL pat.toList s.toList

/-- Python `dict` assignment `d[k] = v`: overwrite in place when the key is
present, otherwise append at the end (insertion order is preserved). -/
def dictInsert {α : Type} (k : String) (v : α) : List (String × α) → List (String × α)
  | [] => [(k, v)]
  | (k₂, v₂) :: rest => if k₂ = k then (k, v) :: rest else (k₂, v₂) :: dictInsert k v rest

/-- Python `dict` lookup `d[k]` / membership `k in d`. -/
def dictFind {α : Type} (k : String) : List (String × α) → Option α
  | [] => Option.none
  | (k₂, v₂) :: rest => if k₂ = k then some v₂ else dictFind k rest

/-! ## Data model

A table is an ordered list of named columns; a column is wholly numeric
(`float64`/`int64` dtype, `none` cells are `NaN`) or text (`object` dtype).
This is the shape `pd.read_csv` produces for the CSV uploads the service
accepts (bool/datetime dtypes are outside every claim and not modelled). -/

/-- Cell data of one column. -/
inductive ColData where
  | num (vals : List (Option ℚ))
  | text (vals : List (Option String))
deriving DecidableEq, Repr

/-- One named column. -/
structure Col where
  name : String
  data : ColData
deriving DecidableEq, Repr

instance : Inhabited Col := ⟨⟨"", ColData.num []⟩⟩

/-- A pandas `DataFrame`: ordered named columns. -/
abbrev Table := List Col

/-- Number of cells in a column. -/
def colLen (c : Col) : ℕ :=
  match c.data with
  | .num v => v.length
  | .text v => v.length

/-- Row count `df.shape[0]` (all columns of a DataFrame have equal length;
`0` for the empty frame). -/
def nRows (df : Table) : ℕ :=
  match df with
  | [] => 0
  | c :: _ => colLen c

/-- Well-formed table: equal-length columns and distinct column names (both
guaranteed by `pd.read_csv`, which pads rows and mangles duplicate
headers). -/
def wellFormed (df : Table) : Prop :=
  (∀ c ∈ df, colLen c = nRows df) ∧ (df.map Col.name).Nodup

/-- Numeric columns of the table with their data, in table order
(`df.select_dtypes(include=[np.number])`). -/
def numericCols (df : Table) : List (String × List (Option ℚ)) :=
  df.filterMap (fun c =>
    match c.data with
    | .num v => some (c.name, v)
    | .text _ => Option.none)

/-! ## Statistical engine (`app/services/statistical_engine.py`) -/

/-- Result dict of `detect_outliers_iqr`.  The bounds are Python `None` on
the `series.empty` guard and float `nan` (`float(NaN)`) when every cell is
missing, hence `PyVal`. -/
structure OutlierResult where
  count : ℕ
  percentage : ℚ
  lower_bound : PyVal
  upper_bound : PyVal
deriving DecidableEq, Repr

/-- Embedding of `detect_outliers_iqr(series)` for a numeric column (the
`not is_numeric_dtype` guard of the source cannot fire on the numeric
variant and the engine only calls it on numeric columns).  The quantiles
are taken over the non-missing values (pandas skips `NaN`); when they are
`NaN` (all cells missing) every comparison against the bounds is false, so
the count is `0`.  The percentage denominator is `len(series)`, the full
column length including missing cells. -/
def detect_outliers_iqr (xs : List (Option ℚ)) : OutlierResult :=
  if xs.length = 0 then
    { count := 0, percentage := 0, lower_bound := .none, upper_bound := .none }
  else
    let v := nonMissing xs
    match pdQuantile (1/4) v, pdQuantile (3/4) v with
    | some q1, some q3 =>
      let iqr := q3 - q1
      let lb := q1 - 3/2 * iqr
      let ub := q3 + 3/2 * iqr
      let c := (v.filter (fun x => decide (x < lb) || decide (ub < x))).length
      { count := c
        percentage := round2 ((c : ℚ) / (xs.length : ℚ) * 100)
        lower_bound := .num lb
        upper_bound := .num ub }
    | _, _ =>
      { count := 0, percentage := round2 0, lower_bound := .nan, upper_bound := .nan }

/-- Result dict of `analyze_skewness`; the source maps a `NaN` skew to
Python `None` before returning, so the value is a plain option. -/
structure SkewResult where
  value : Option ℚ
  classification : String
deriving DecidableEq, Repr

/-- Embedding of pandas `Series.skew()` over a numeric column.  Per
`pandas.core.nanops.nanskew`: `NaN` when fewer than 3 non-missing values;
`0.0` when the second central moment is zero (the floating-point-error
guard of pandas GH#11974 zeroes `m2` and then maps `m2 == 0` to `0`, so a
constant column with at least 3 values has skew `0.0`, not `NaN`); in the
non-degenerate case the adjusted Fisher-Pearson coefficient
`√(n(n-1))/(n-2) · m3/m2^{3/2}`, an irrational real supplied by the oracle
`sk` applied to the non-missing values.  (pandas also zeroes an `m2` below
`1e-14`; with exact rationals this is modelled as exact zero.) -/
def pandasSkew (sk : List ℚ → ℚ) (xs : List (Option ℚ)) : Option ℚ :=
  let v := nonMissing xs
  if v.length < 3 then Option.none
  else if m2Q v = 0 then some 0
  else some (sk v)

/-- Classification chain of `analyze_skewness` on a defined skew value. -/
def classify_skew (s : ℚ) : String :=
  if 1 < s then "Highly Right-Skewed (Long Tail)"
  else if 1/2 < s then "Moderately Right-Skewed"
  else if s < -1 then "Highly Left-Skewed"
  else if s < -(1/2) then "Moderately Left-Skewed"
  else "Symmetric"

/-- Embedding of `analyze_skewness(series)` for a numeric column: the
`series.empty` guard, the `pd.isna(skew_val)` guard, and otherwise the
rounded value with its classification. -/
def analyze_skewness (sk : List ℚ → ℚ) (xs : List (Option ℚ)) : SkewResult :=
  if xs.length = 0 then { value := Option.none, classification := "Unknown" }
  else
    match pandasSkew sk xs with
    | Option.none => { value := Option.none, classification := "Unknown" }
    | some s => { value := some (round2 s), classification := classify_skew s }

/-- Result dict of `analyze_variability`: `std_dev` and `cv` are Python
`None` on the empty guard, possibly float `nan` otherwise. -/
structure VarResult where
  std_dev : PyVal
  cv : PyVal
  classification : String
deriving DecidableEq, Repr

/-- Embedding of `analyze_variability(series)` for a numeric column.
After the `series.empty` guard the source computes `mean` and the sample
standard deviation (both skip missing cells; `mean` is `NaN` when no cell
remains and `std` is `NaN` when fewer than 2 remain), guards `mean == 0`
returning `cv = None`, and otherwise classifies `cv = std/|mean|`:
`cv < 0.1` low, `cv > 1.0` high, else moderate — a comparison with `NaN`
is false, so a `NaN` mean or std lands on the default moderate label.  The
order comparisons of the irrational `cv = √var/|mean|` against a positive
threshold `t` are embedded as the equivalent `var < t²·mean²` (resp. `>`),
and the reported `round(·, 2)` values via exact integer square roots:
`round(std, 2) = rnd2sqrt var` and `round(cv, 2) = rnd2sqrt (var/mean²)`. -/
def analyze_variability (xs : List (Option ℚ)) : VarResult :=
  if xs.length = 0 then
    { std_dev := .none, cv := .none, classification := "Unknown" }
  else
    let v := nonMissing xs
    if v.length = 0 then
      { std_dev := .nan, cv := .nan, classification := "Moderate Variability" }
    else
      let μ := meanQ v
      let stdR : PyVal := if v.length < 2 then .nan else .num (rnd2sqrt (sampleVar v))
      if μ = 0 then
        { std_dev := stdR, cv := .none, classification := "Unknown (Mean is 0)" }
      else if v.length < 2 then
        { std_dev := .nan, cv := .nan, classification := "Moderate Variability" }
      else
        let var := sampleVar v
        { std_dev := .num (rnd2sqrt var)
          cv := .num (rnd2sqrt (var / μ ^ 2))
          classification :=
            if var < (1/10) ^ 2 * μ ^ 2 then "Low Variability (Stable)"
            else if 1 ^ 2 * μ ^ 2 < var then "High Variability (Volatile)"
            else "Moderate Variability" }

/-- One entry of the `strong_corrs` list of `compute_correlations`. -/
structure CorrFinding where
  col_1 : String
  col_2 : String
  correlation : ℚ
  strength : String
deriving DecidableEq, Repr

/-- Index pairs visited by the nested loops
`for i in range(n): for j in range(i)`, in visit order. -/
def lowerTriPairs : ℕ → List (ℕ × ℕ)
  | 0 => []
  | n + 1 => lowerTriPairs n ++ (List.range n).map (fun j => (n, j))

/-- Loop body of `compute_correlations` at index pair `p = (i, j)`: look
up the matrix entry `corr_matrix.iloc[i, j]` (`none` embeds a `NaN` entry,
produced e.g. by a constant column, for which `abs(r) > 0.7` is false) and
emit a finding when `|r| > 0.7`. -/
def corrEmit (corrO : List (Option ℚ) → List (Option ℚ) → Option ℚ)
    (nc : List (String × List (Option ℚ))) (p : ℕ × ℕ) : Option CorrFinding :=
  match corrO (nc.getD p.1 ("", [])).2 (nc.getD p.2 ("", [])).2 with
  | Option.none => Option.none
  | some r =>
    if 7/10 < |r| then
      some { col_1 := (nc.getD p.1 ("", [])).1, col_2 := (nc.getD p.2 ("", [])).1,
             correlation := round2 r,
             strength := if 9/10 < |r| then "Very Strong" else "Strong" }
    else Option.none

/-- Embedding of `compute_correlations(df)`.  The Pearson matrix
`numeric_df.corr()` is the oracle `corrO` applied to the two columns. The
nested loops over the lower triangle are flattened to `filterMap` over the
visited index pairs, preserving the emission order. -/
def compute_correlations (corrO : List (Option ℚ) → List (Option ℚ) → Option ℚ)
    (df : Table) : List CorrFinding :=
  let nc := numericCols df
  if nc.length < 2 then []
  else (lowerTriPairs nc.length).filterMap (corrEmit corrO nc)

/-- Per-column bundle built by `run_statistical_analysis`. -/
structure ColDiagnostics where
  outliers : OutlierResult
  skewness : SkewResult
  variability : VarResult
deriving DecidableEq, Repr

/-- Embedding of `run_statistical_analysis(df)`: the `numeric_columns`
dict (keyed by column name, filled in numeric-column order) and the
correlation list. -/
def run_statistical_analysis (sk : List ℚ → ℚ)
    (corrO : List (Option ℚ) → List (Option ℚ) → Option ℚ) (df : Table) :
    List (String × ColDiagnostics) × List CorrFinding :=
  ((numericCols df).foldl
      (fun acc nv =>
        dictInsert nv.1
          { outliers := detect_outliers_iqr nv.2
            skewness := analyze_skewness sk nv.2
            variability := analyze_variability nv.2 } acc)
      [],
   compute_correlations corrO df)

/-! ## Report schema (`app/schemas/profile.py`) and profiler
(`app/services/profiler.py`) -/

/-- Python float formatting used by the f-strings of the profiler and the
confidence warning: all interpolated numbers are outputs of `round(·, 2)`
or `round(·, 1)`, for which `repr` prints the integer part, a dot, and the
one or two fractional digits with a trailing zero dropped but at least one
digit kept (`20.0`, `16.67`, `0.95`, `79.5`). -/
def fmtQ (q : ℚ) : String :=
  let sign := if q < 0 then "-" else ""
  let c : ℤ := ⌊|q| * 100⌋
  let ip := c / 100
  let fp := c % 100
  sign ++ toString ip ++ "." ++
    (if fp % 10 = 0 then toString (fp / 10)
     else (if fp < 10 then "0" else "") ++ toString fp)

/-- Pydantic `ColumnProfile`. -/
structure ColumnProfile where
  name : String
  dtype : String
  missing_count : ℕ
  unique_count : ℕ
  mean : Option ℚ
  min : Option ℚ
  max : Option ℚ
  outliers_count : ℕ
  skewness : Option String
  variability_cv : Option String
deriving DecidableEq, Repr

/-- Pydantic `DatasetSummary`. -/
structure DatasetSummary where
  total_rows : ℕ
  total_columns : ℕ
  file_size_kb : ℚ
  duplicate_rows : ℕ
  memory_usage_kb : ℚ
deriving DecidableEq, Repr

/-- Pydantic `ProfileReport` (the `ai_analysis` narrative is attached by an
external collaborator; the engine returns it as `None`). -/
structure ProfileReport where
  filename : String
  summary : DatasetSummary
  columns : List ColumnProfile
  alerts : List String
  ai_analysis : Option String
deriving DecidableEq, Repr

/-- Missing-cell count of a column (`df[col].isnull().sum()`). -/
def colMissing (c : Col) : ℕ :=
  match c.data with
  | .num v => (v.filter (fun x => x.isNone)).length
  | .text v => (v.filter (fun x => x.isNone)).length

/-- Distinct non-missing value count (`df[col].nunique()`). -/
def colUnique (c : Col) : ℕ :=
  match c.data with
  | .num v => (v.filterMap id).dedup.length
  | .text v => (v.filterMap id).dedup.length

/-- Dtype label `str(df[col].dtype)`; a fixed representative per variant
(CSV ingestion yields `float64`/`int64` for numeric and `object` for text;
no claim inspects the label beyond numeric vs not). -/
def dtypeStr : ColData → String
  | .num _ => "float64"
  | .text _ => "object"

/-- Minimum of a nonempty list, folding from the head (pandas `min`
skipping missing cells). -/
def minQ (x : ℚ) (rest : List ℚ) : ℚ :=
  rest.foldl min x

/-- Maximum of a nonempty list, folding from the head. -/
def maxQ (x : ℚ) (rest : List ℚ) : ℚ :=
  rest.foldl max x

/-- Outlier alert string of the profiler. -/
def outlierAlert (name : String) (pct : ℚ) : String :=
  "Column \x27" ++ name ++ "\x27 has " ++ fmtQ pct ++ "% outliers."

/-- Volatility alert string of the profiler. -/
def volAlert (name : String) : String :=
  "Column \x27" ++ name ++ "\x27 is highly volatile (High Variability)."

/-- Correlation alert string appended per finding by the profiler. -/
def corrAlert (f : CorrFinding) : String :=
  "Strong Correlation (" ++ fmtQ f.correlation ++ ") between \x27" ++ f.col_1 ++
    "\x27 and \x27" ++ f.col_2 ++ "\x27. Check for multicollinearity."

/-- Per-column body of the `for col in df.columns` loop of
`analyze_dataset`: the assembled `ColumnProfile` together with the alerts
this column appends, in append order.  Mirrors the source: the base stats,
then for a numeric column the guarded mean/min/max and — when the column
name is in the engine dict — the merged diagnostics and the two threshold
alerts (outliers above 5%, then a classification containing `"High"`). -/
def profileColumn (stats : List (String × ColDiagnostics)) (c : Col) :
    ColumnProfile × List String :=
  let base : ColumnProfile :=
    { name := c.name, dtype := dtypeStr c.data, missing_count := colMissing c,
      unique_count := colUnique c, mean := Option.none, min := Option.none,
      max := Option.none, outliers_count := 0, skewness := Option.none,
      variability_cv := Option.none }
  match c.data with
  | .text _ => (base, [])
  | .num v =>
    let withStats : ColumnProfile :=
      match nonMissing v with
      | [] => base
      | x :: rest =>
        { base with mean := some (meanQ (x :: rest)), min := some (minQ x rest),
                    max := some (maxQ x rest) }
    match dictFind c.name stats with
    | Option.none => (withStats, [])
    | some d =>
      ({ withStats with
           outliers_count := d.outliers.count
           skewness := some d.skewness.classification
           variability_cv := some d.variability.classification },
       (if 5 < d.outliers.percentage then [outlierAlert c.name d.outliers.percentage]
        else []) ++
       (if strContains d.variability.classification "High" then [volAlert c.name]
        else []))

/-- Alerts contributed by one column, standalone: nothing for a text
column; for a numeric column the outlier alert (strictly above 5%)
followed by the volatility alert (label containing `"High"`), computed
from the column itself.  The C9 theorem proves the profiler emits exactly
`df.flatMap columnAlerts` followed by one correlation alert per finding —
i.e. this per-column regrouping in table order. -/
def columnAlerts (c : Col) : List String :=
  match c.data with
  | .text _ => []
  | .num v =>
    (if 5 < (detect_outliers_iqr v).percentage
     then [outlierAlert c.name (detect_outliers_iqr v).percentage] else []) ++
    (if strContains (analyze_variability v).classification "High"
     then [volAlert c.name] else [])

/-- Cell of column `c` at row `i`, with numeric and text payloads kept
apart; `none` is a missing cell (pandas `duplicated` treats `NaN` cells in
the same position as equal). -/
def cellAt (c : Col) (i : ℕ) : Option (ℚ ⊕ String) :=
  match c.data with
  | .num v => (v.getD i Option.none).map Sum.inl
  | .text v => (v.getD i Option.none).map Sum.inr

/-- Row `i` of the table, as the list of its cells across columns. -/
def rowAt (df : Table) (i : ℕ) : List (Option (ℚ ⊕ String)) :=
  df.map (fun c => cellAt c i)

/-- Duplicate-row count `df.duplicated().sum()`: rows equal to some
earlier row, by exact full-row equality. -/
def duplicateRows (df : Table) : ℕ :=
  ((List.range (nRows df)).filter
    (fun i => (List.range i).any (fun j => decide (rowAt df j = rowAt df i)))).length

/-- Embedding of `analyze_dataset(df, filename)`.  `sk` and `corrO` are the
numeric-kernel oracles of the statistical engine; `memKB` stands for the
environment-dependent `df.memory_usage(deep=True).sum() / 1024`, used
(rounded) for both size fields of the summary. -/
def analyze_dataset (sk : List ℚ → ℚ)
    (corrO : List (Option ℚ) → List (Option ℚ) → Option ℚ)
    (memKB : ℚ) (df : Table) (filename : String) : ProfileReport :=
  let stats := run_statistical_analysis sk corrO df
  let colResults := df.map (fun c => profileColumn stats.1 c)
  { filename := filename
    summary :=
      { total_rows := nRows df, total_columns := df.length,
        file_size_kb := round2 memKB, duplicate_rows := duplicateRows df,
        memory_usage_kb := round2 memKB }
    columns := colResults.map Prod.fst
    alerts := (colResults.map Prod.snd).flatten ++ stats.2.map corrAlert
    ai_analysis := Option.none }

/-! ## Reliability scorer (`app/services/ai_analyst.py`,
`calculate_data_confidence`) -/

/-- Result dict of `calculate_data_confidence`. -/
structure Confidence where
  score : String
  completeness : ℚ
  sample_size : ℕ
  warnings : List String
deriving DecidableEq, Repr

/-- Completeness warning text; when `total_cells` is zero the source stores
the Python int `0`, which formats without a decimal point. -/
def completenessWarning (cellsPos : Bool) (comp : ℚ) : String :=
  "Data is only " ++ (if cellsPos then fmtQ comp else "0") ++ "% complete."

/-- Embedding of `calculate_data_confidence(profile)`: completeness over
all cells (rounded to 1 decimal, `0` when the frame has no cells), then
the sample-size rule, then the completeness override. -/
def calculate_data_confidence (p : ProfileReport) : Confidence :=
  let rows := p.summary.total_rows
  let cells := rows * p.summary.total_columns
  let missing := (p.columns.map ColumnProfile.missing_count).sum
  let comp : ℚ :=
    if 0 < cells then round1 (((cells : ℚ) - (missing : ℚ)) / (cells : ℚ) * 100)
    else 0
  let sw :=
    if rows < 50 then
      ("LOW (Insufficient Data)",
       ["Sample size is too small for statistical significance."])
    else if rows < 200 then ("MEDIUM", ([] : List String))
    else ("HIGH", ([] : List String))
  let sw₂ :=
    if comp < 80 then
      ("LOW (Poor Data Quality)", sw.2 ++ [completenessWarning (0 < cells) comp])
    else sw
  { score := sw₂.1, completeness := comp, sample_size := rows, warnings := sw₂.2 }

/-! ## Supporting lemmas -/

theorem round2_zero : round2 0 = 0 := by
  simp [round2]

@[simp] theorem nonMissing_nil : nonMissing [] = [] := rfl

@[simp] theorem nonMissing_cons_some (q : ℚ) (xs : List (Option ℚ)) :
    nonMissing (some q :: xs) = q :: nonMissing xs := rfl

@[simp] theorem nonMissing_cons_none (xs : List (Option ℚ)) :
    nonMissing (Option.none :: xs) = nonMissing xs := rfl

/-! ## Claims -/

/-- C5 (amended): on every defined skew value the classifier assigns
exactly one label by the stated thresholds, the top bucket carrying the
label `"Highly Right-Skewed (Long Tail)"` (the source string includes the
parenthetical); the buckets are mutually exclusive and exhaustive over ℚ,
as the five iffs cover all of ℚ with disjoint conditions. -/
theorem classify_skew_buckets (s : ℚ) :
    (classify_skew s = "Highly Right-Skewed (Long Tail)" ↔ 1 < s)
    ∧ (classify_skew s = "Moderately Right-Skewed" ↔ 1/2 < s ∧ s ≤ 1)
    ∧ (classify_skew s = "Highly Left-Skewed" ↔ s < -1)
    ∧ (classify_skew s = "Moderately Left-Skewed" ↔ -1 ≤ s ∧ s < -(1/2))
    ∧ (classify_skew s = "Symmetric" ↔ -(1/2) ≤ s ∧ s ≤ 1/2) := by
  unfold classify_skew
  split_ifs with h1 h2 h3 h4 <;>
    refine ⟨?_, ?_, ?_, ?_, ?_⟩ <;> constructor <;> intro h <;> simp_all <;> linarith

/-- C5 counterexample: at skew value 2 the code label is
`"Highly Right-Skewed (Long Tail)"`, not the claimed
`"Highly Right-Skewed"`. -/
theorem classify_skew_label_counterexample :
    classify_skew 2 = "Highly Right-Skewed (Long Tail)" ∧
      classify_skew 2 ≠ "Highly Right-Skewed" :=
  ⟨by norm_num [classify_skew], by norm_num [classify_skew]; decide⟩

/-- C6 (amended): the shape classifier returns `"Unknown"` with a null
value exactly when the pandas skew is `NaN`, i.e. when fewer than 3
non-missing values exist; a zero-variance column with at least 3
non-missing values gets skew `0.0` from pandas (its `m2 == 0` guard) and
is classified `"Symmetric"` with value `0.0`. -/
theorem analyze_skewness_degenerate (sk : List ℚ → ℚ) (xs : List (Option ℚ)) :
    ((nonMissing xs).length < 3 →
      analyze_skewness sk xs = { value := Option.none, classification := "Unknown" })
    ∧ (3 ≤ (nonMissing xs).length → m2Q (nonMissing xs) = 0 →
      analyze_skewness sk xs = { value := some 0, classification := "Symmetric" }) := by
  constructor
  · intro h
    unfold analyze_skewness pandasSkew
    by_cases he : xs.length = 0
    · simp [he]
    · simp [he, h]
  · intro h3 hm2
    have he : xs.length ≠ 0 := by
      intro he
      rw [List.length_eq_zero] at he
      simp [he, nonMissing] at h3
    have hcs : classify_skew 0 = "Symmetric" := by norm_num [classify_skew]
    unfold analyze_skewness pandasSkew
    rw [if_neg he, if_neg (by omega : ¬ (nonMissing xs).length < 3), if_pos hm2]
    simp [round2_zero, hcs]

/-- C6 witness: a two-value constant column is `NaN`-skewed and classified
`"Unknown"`, and the four-value constant column `[5,5,5,5]` (zero second
moment) is classified `"Symmetric"` with value `0`. -/
theorem analyze_skewness_degenerate_witness :
    analyze_skewness (fun _ => 0) [some 5, some 5] =
        { value := Option.none, classification := "Unknown" } ∧
      analyze_skewness (fun _ => 0) [some 5, some 5, some 5, some 5] =
        { value := some 0, classification := "Symmetric" } :=
  ⟨(analyze_skewness_degenerate (fun _ => 0) [some 5, some 5]).1 (by decide),
   (analyze_skewness_degenerate (fun _ => 0) [some 5, some 5, some 5, some 5]).2
     (by decide) (by norm_num [m2Q, meanQ])⟩

/-- C6 counterexample: on the constant column `[5,5,5,5]` the classifier
does not return `"Unknown"` with a null value — pandas gives the constant
column skew `0.0` (zero second central moment with at least 3 values), so
the result is value `0` with classification `"Symmetric"`.  The skew
oracle argument is irrelevant here: the zero-variance branch never
consults it, so `fun _ => 0` is an arbitrary representative. -/
theorem analyze_skewness_constant_counterexample :
    analyze_skewness (fun _ => 0) [some 5, some 5, some 5, some 5] =
        { value := some 0, classification := "Symmetric" } ∧
      analyze_skewness (fun _ => 0) [some 5, some 5, some 5, some 5] ≠
        { value := Option.none, classification := "Unknown" } := by
  norm_num [analyze_skewness, pandasSkew, m2Q, meanQ, round2, classify_skew]
  decide

/-- C2 (amended): the outlier percentage equals the outlier count divided
by the full column length — including missing cells (`len(series)`), not
the non-missing length — times 100, rounded to 2 decimals; and a column
with zero usable values yields count `0` and percentage `0.0` (no division
by zero). -/
theorem detect_outliers_percentage (xs : List (Option ℚ)) :
    (detect_outliers_iqr xs).percentage =
      round2 (((detect_outliers_iqr xs).count : ℚ) / (xs.length : ℚ) * 100)
    ∧ (nonMissing xs = [] →
        (detect_outliers_iqr xs).count = 0 ∧ (detect_outliers_iqr xs).percentage = 0) := by
  unfold detect_outliers_iqr
  by_cases he : xs.length = 0
  · simp [he, round2_zero]
  · by_cases hv : nonMissing xs = []
    · rw [hv]
      simp [he, pdQuantile, round2_zero]
    · obtain ⟨y, ys, hys⟩ := List.exists_cons_of_ne_nil hv
      rw [hys]
      simp [he, pdQuantile]

/-- C2 witness: the all-missing one-cell column has zero usable values and
yields count `0`, percentage `0.0`. -/
theorem detect_outliers_percentage_witness :
    (detect_outliers_iqr [Option.none]).count = 0 ∧
      (detect_outliers_iqr [Option.none]).percentage = 0 :=
  (detect_outliers_percentage [Option.none]).2 rfl

/-- C2 counterexample: on `[1, 2, 3, 4, 100, NaN]` the detector flags the
single outlier `100` but reports `round(1/6·100, 2) = 16.67` — the
denominator is the full length 6, not the non-missing length 5, which
would give `20.0` as the claim states. -/
theorem detect_outliers_denominator_counterexample :
    (detect_outliers_iqr [some 1, some 2, some 3, some 4, some 100, Option.none]).count = 1 ∧
    (nonMissing [some 1, some 2, some 3, some 4, some 100, Option.none]).length = 5 ∧
    (detect_outliers_iqr [some 1, some 2, some 3, some 4, some 100, Option.none]).percentage
      = 1667/100 ∧
    round2 ((1 : ℚ) / 5 * 100) = 20 ∧ ((1667 : ℚ)/100) ≠ 20 := by
  have hnm : nonMissing [some 1, some 2, some 3, some 4, some 100, Option.none]
      = [1, 2, 3, 4, 100] := rfl
  have h1 : pdQuantile (1/4) [1, 2, 3, 4, (100:ℚ)] = some 2 := by
    norm_num [pdQuantile, sortQ, insertAsc]
  have h3 : pdQuantile (3/4) [1, 2, 3, 4, (100:ℚ)] = some 4 := by
    norm_num [pdQuantile, sortQ, insertAsc]
    simp
  have hres : detect_outliers_iqr [some 1, some 2, some 3, some 4, some 100, Option.none] =
      { count := 1, percentage := 1667/100, lower_bound := PyVal.num (-1),
        upper_bound := PyVal.num 7 } := by
    unfold detect_outliers_iqr
    simp only [hnm, h1, h3]
    norm_num [round2, round_eq, List.filter_cons, decide_eq_true_eq]
  exact ⟨by rw [hres], by decide, by rw [hres], by norm_num [round2, round_eq], by norm_num⟩

/-- C7: the volatility classifier returns `"Unknown (Mean is 0)"` with a
Python-`None` CV exactly when the column mean is exactly zero (the
division is guarded, never raised — the embedding is total); otherwise,
for a column where CV is defined (at least 2 non-missing values), the
label follows the thresholds on `cv = std/|mean|`, embedded by the
equivalent squared comparisons `var < t²·mean²` resp. `>`; when the mean
or std is `NaN` (no non-missing value, resp. a single one) every threshold
comparison is false and the label is `"Moderate Variability"`. -/
theorem analyze_variability_spec (xs : List (Option ℚ)) :
    ((analyze_variability xs).classification = "Unknown (Mean is 0)" ↔
      (xs ≠ [] ∧ nonMissing xs ≠ [] ∧ meanQ (nonMissing xs) = 0))
    ∧ (xs ≠ [] →
        ((analyze_variability xs).cv = PyVal.none ↔
          (nonMissing xs ≠ [] ∧ meanQ (nonMissing xs) = 0)))
    ∧ (xs ≠ [] → meanQ (nonMissing xs) ≠ 0 → 2 ≤ (nonMissing xs).length →
        (((analyze_variability xs).classification = "Low Variability (Stable)" ↔
            sampleVar (nonMissing xs) < (1/10) ^ 2 * meanQ (nonMissing xs) ^ 2)
         ∧ ((analyze_variability xs).classification = "High Variability (Volatile)" ↔
            1 ^ 2 * meanQ (nonMissing xs) ^ 2 < sampleVar (nonMissing xs))
         ∧ ((analyze_variability xs).classification = "Moderate Variability" ↔
            (¬ sampleVar (nonMissing xs) < (1/10) ^ 2 * meanQ (nonMissing xs) ^ 2 ∧
             ¬ 1 ^ 2 * meanQ (nonMissing xs) ^ 2 < sampleVar (nonMissing xs)))))
    ∧ (xs ≠ [] → (nonMissing xs).length < 2 → meanQ (nonMissing xs) ≠ 0 →
        (analyze_variability xs).classification = "Moderate Variability") := by
  by_cases he : xs = []
  · subst he
    simp [analyze_variability]
  · have hel : ¬ xs.length = 0 := by simpa [List.length_eq_zero] using he
    unfold analyze_variability
    rw [if_neg hel]
    by_cases hv : (nonMissing xs).length = 0
    · have hvnil : nonMissing xs = [] := List.length_eq_zero.mp hv
      simp [hv, hvnil, he]
    · by_cases hμ : meanQ (nonMissing xs) = 0
      · have hvne : nonMissing xs ≠ [] := fun h => hv (by simp [h])
        simp [hv, hμ, he, hvne]
      · by_cases hn : (nonMissing xs).length < 2
        · simp [hv, hμ, hn, he]
        · rw [if_neg hv, if_neg hμ, if_neg hn]
          dsimp only
          have hvne : nonMissing xs ≠ [] := fun h => hv (by simp [h])
          have hμsq : 0 < meanQ (nonMissing xs) ^ 2 := by positivity
          refine ⟨?_, ?_, ?_, ?_⟩
          · split_ifs <;> simp [hμ, hvne]
          · intro _
            simp [hμ]
          · intro _ _ _
            refine ⟨?_, ?_, ?_⟩
            · split_ifs with h₁ h₂ <;> simpa using h₁
            · split_ifs with h₁ h₂
              · refine iff_of_false (by simp) (by push_neg; linarith [hμsq])
              · simpa using h₂
              · simpa using h₂
            · split_ifs with h₁ h₂
              · exact iff_of_false (by simp) (fun hc => hc.1 h₁)
              · exact iff_of_false (by simp) (fun hc => hc.2 h₂)
              · exact iff_of_true rfl ⟨h₁, h₂⟩
          · intro _ hlen _
            omega

/-- C7 witness: the column `[1, 2]` has nonzero mean `3/2` and defined CV
`√(1/2)/(3/2)`, which is neither below `0.1` nor above `1.0`, so the label
is `"Moderate Variability"`; and the mean-zero column `[-1, 1]` gets
`"Unknown (Mean is 0)"` with a null CV. -/
theorem analyze_variability_spec_witness :
    (analyze_variability [some 1, some 2]).classification = "Moderate Variability" ∧
      ((analyze_variability [some (-1), some 1]).classification = "Unknown (Mean is 0)" ∧
        (analyze_variability [some (-1), some 1]).cv = PyVal.none) := by
  constructor
  · exact (((analyze_variability_spec [some 1, some 2]).2.2.1
      (by simp) (by norm_num [meanQ]) (by simp)).2.2).mpr
      (by constructor <;> norm_num [sampleVar, m2Q, meanQ])
  · exact ⟨(analyze_variability_spec [some (-1), some 1]).1.mpr
        ⟨by simp, by simp, by norm_num [meanQ]⟩,
      ((analyze_variability_spec [some (-1), some 1]).2.1 (by simp)).mpr
        ⟨by simp, by norm_num [meanQ]⟩⟩

/-- C3: the reliability rules fire in order — sample size below 50 gives
`"LOW (Insufficient Data)"` plus the significance warning, 50–199 gives
`"MEDIUM"`, 200 and up gives `"HIGH"` — and then completeness below 80
overrides the score to `"LOW (Poor Data Quality)"` and appends the
completeness warning; hence the score is `"HIGH"` iff the sample size is
at least 200 and the (reported, rounded) completeness at least 80, and
both warnings co-exist exactly when both rules fire, in rule order. -/
theorem calculate_data_confidence_spec (p : ProfileReport) :
    (calculate_data_confidence p).sample_size = p.summary.total_rows
    ∧ ((calculate_data_confidence p).score = "HIGH" ↔
        200 ≤ p.summary.total_rows ∧ 80 ≤ (calculate_data_confidence p).completeness)
    ∧ ((calculate_data_confidence p).score = "MEDIUM" ↔
        (50 ≤ p.summary.total_rows ∧ p.summary.total_rows < 200 ∧
          80 ≤ (calculate_data_confidence p).completeness))
    ∧ ((calculate_data_confidence p).score = "LOW (Insufficient Data)" ↔
        (p.summary.total_rows < 50 ∧ 80 ≤ (calculate_data_confidence p).completeness))
    ∧ ((calculate_data_confidence p).score = "LOW (Poor Data Quality)" ↔
        (calculate_data_confidence p).completeness < 80)
    ∧ (calculate_data_confidence p).warnings =
        ((if p.summary.total_rows < 50 then
            ["Sample size is too small for statistical significance."] else []) ++
         (if (calculate_data_confidence p).completeness < 80 then
            [completenessWarning (0 < p.summary.total_rows * p.summary.total_columns)
              (calculate_data_confidence p).completeness] else [])) := by
  unfold calculate_data_confidence
  dsimp only
  split_ifs <;> refine ⟨rfl, ?_, ?_, ?_, ?_, rfl⟩ <;> constructor <;> intro h <;>
    simp_all <;> first | omega | linarith

theorem mem_lowerTriPairs {n : ℕ} {p : ℕ × ℕ} :
    p ∈ lowerTriPairs n ↔ p.2 < p.1 ∧ p.1 < n := by
  induction n with
  | zero => simp [lowerTriPairs]
  | succ m ih =>
    rcases p with ⟨i, j⟩
    simp only [lowerTriPairs, List.mem_append, List.mem_map, List.mem_range, ih,
      Prod.mk.injEq]
    constructor
    · rintro (⟨hj, hi⟩ | ⟨a, ha, rfl, rfl⟩)
      · exact ⟨hj, Nat.lt_succ_of_lt hi⟩
      · exact ⟨ha, Nat.lt_succ_self _⟩
    · rintro ⟨hj, hi⟩
      rcases Nat.lt_succ_iff_lt_or_eq.mp hi with hlt | rfl
      · exact Or.inl ⟨hj, hlt⟩
      · exact Or.inr ⟨j, hj, rfl, rfl⟩

theorem nodup_lowerTriPairs (n : ℕ) : (lowerTriPairs n).Nodup := by
  induction n with
  | zero => simp [lowerTriPairs]
  | succ m ih =>
    rw [lowerTriPairs, List.nodup_append]
    refine ⟨ih, (List.nodup_range m).map (fun a b hab => by simpa using hab), ?_⟩
    intro a ha hb
    obtain ⟨h1, h2⟩ := mem_lowerTriPairs.mp ha
    obtain ⟨b, _, hb2⟩ := List.mem_map.mp hb
    rw [← hb2] at h2
    exact absurd h2 (Nat.lt_irrefl m)

theorem getD_fst_ne {l : List (String × List (Option ℚ))}
    (hnd : (l.map Prod.fst).Nodup) {i j : ℕ}
    (hi : i < l.length) (hj : j < l.length) (hij : i ≠ j) :
    (l.getD i ("", [])).1 ≠ (l.getD j ("", [])).1 := by
  rw [List.getD_eq_getElem _ _ hi, List.getD_eq_getElem _ _ hj]
  intro hcon
  have hi₂ : i < (l.map Prod.fst).length := by simpa using hi
  have hj₂ : j < (l.map Prod.fst).length := by simpa using hj
  have h1 : (l.map Prod.fst)[i] = (l.map Prod.fst)[j] := by
    simpa [List.getElem_map] using hcon
  exact hij (hnd.getElem_inj_iff.mp h1)

theorem corrEmit_eq_some {corrO : List (Option ℚ) → List (Option ℚ) → Option ℚ}
    {nc : List (String × List (Option ℚ))} {p : ℕ × ℕ} {f : CorrFinding}
    (h : corrEmit corrO nc p = some f) :
    ∃ r : ℚ, corrO (nc.getD p.1 ("", [])).2 (nc.getD p.2 ("", [])).2 = some r ∧
      7/10 < |r| ∧
      f = { col_1 := (nc.getD p.1 ("", [])).1, col_2 := (nc.getD p.2 ("", [])).1,
            correlation := round2 r,
            strength := if 9/10 < |r| then "Very Strong" else "Strong" } := by
  unfold corrEmit at h
  rcases hr : corrO (nc.getD p.1 ("", [])).2 (nc.getD p.2 ("", [])).2 with _ | r
  · rw [hr] at h
    simp at h
  · rw [hr] at h
    simp only [] at h
    by_cases hth : 7/10 < |r|
    · rw [if_pos hth] at h
      exact ⟨r, rfl, hth, (Option.some.inj h).symm⟩
    · rw [if_neg hth] at h
      cases h

theorem mem_compute_correlations
    {corrO : List (Option ℚ) → List (Option ℚ) → Option ℚ} {df : Table}
    {f : CorrFinding} :
    f ∈ compute_correlations corrO df ↔
      ∃ i j : ℕ, j < i ∧ i < (numericCols df).length ∧
        ∃ r : ℚ,
          corrO ((numericCols df).getD i ("", [])).2
              ((numericCols df).getD j ("", [])).2 = some r ∧
          7/10 < |r| ∧
          f = { col_1 := ((numericCols df).getD i ("", [])).1,
                col_2 := ((numericCols df).getD j ("", [])).1,
                correlation := round2 r,
                strength := if 9/10 < |r| then "Very Strong" else "Strong" } := by
  unfold compute_correlations
  by_cases hn : (numericCols df).length < 2
  · simp only [if_pos hn, List.not_mem_nil, false_iff]
    rintro ⟨i, j, hj, hi, _⟩
    omega
  · rw [if_neg hn, List.mem_filterMap]
    constructor
    · rintro ⟨p, hp, hsome⟩
      obtain ⟨hj, hi⟩ := mem_lowerTriPairs.mp hp
      obtain ⟨r, hr, hth, hf⟩ := corrEmit_eq_some hsome
      exact ⟨p.1, p.2, hj, hi, r, hr, hth, hf⟩
    · rintro ⟨i, j, hj, hi, r, hr, hth, rfl⟩
      refine ⟨(i, j), mem_lowerTriPairs.mpr ⟨hj, hi⟩, ?_⟩
      unfold corrEmit
      rw [hr]
      simp [hth]

/-- C4: the correlation detector returns an empty list when fewer than 2
numeric columns exist; it never emits a self-pair and never the same
unordered pair twice (column names are distinct after CSV ingestion, which
mangles duplicate headers — hence the `Nodup` hypothesis); a finding for
the numeric columns at indices `i > j` exists iff the matrix entry is a
defined `r` with `|r| > 0.7`; and every finding carries the coefficient
rounded to 2 decimals with strength `"Very Strong"` iff `|r| > 0.9`, else
`"Strong"`. -/
theorem compute_correlations_spec
    (corrO : List (Option ℚ) → List (Option ℚ) → Option ℚ) (df : Table)
    (hnd : ((numericCols df).map Prod.fst).Nodup) :
    ((numericCols df).length < 2 → compute_correlations corrO df = [])
    ∧ (∀ f ∈ compute_correlations corrO df, f.col_1 ≠ f.col_2)
    ∧ List.Pairwise (fun f g =>
        ¬((f.col_1 = g.col_1 ∧ f.col_2 = g.col_2) ∨
          (f.col_1 = g.col_2 ∧ f.col_2 = g.col_1)))
        (compute_correlations corrO df)
    ∧ (∀ i j : ℕ, j < i → i < (numericCols df).length →
        ∀ r : ℚ,
          corrO ((numericCols df).getD i ("", [])).2
              ((numericCols df).getD j ("", [])).2 = some r →
          7/10 < |r| →
          { col_1 := ((numericCols df).getD i ("", [])).1,
            col_2 := ((numericCols df).getD j ("", [])).1,
            correlation := round2 r,
            strength := if 9/10 < |r| then "Very Strong" else "Strong" }
            ∈ compute_correlations corrO df)
    ∧ (∀ f ∈ compute_correlations corrO df, ∃ r : ℚ, 7/10 < |r| ∧
        f.correlation = round2 r ∧
        f.strength = (if 9/10 < |r| then "Very Strong" else "Strong")) := by
  refine ⟨?_, ?_, ?_, ?_, ?_⟩
  · intro hn
    unfold compute_correlations
    rw [if_pos hn]
  · intro f hf
    obtain ⟨i, j, hj, hi, r, hr, hth, rfl⟩ := mem_compute_correlations.mp hf
    exact getD_fst_ne hnd hi (by omega) (by omega)
  · unfold compute_correlations
    by_cases hn : (numericCols df).length < 2
    · rw [if_pos hn]
      exact List.Pairwise.nil
    · rw [if_neg hn]
      rw [List.pairwise_filterMap]
      refine (nodup_lowerTriPairs _).imp_of_mem ?_
      intro p q hp hq hne f hf g hg hsame
      obtain ⟨hpj, hpi⟩ := mem_lowerTriPairs.mp hp
      obtain ⟨hqj, hqi⟩ := mem_lowerTriPairs.mp hq
      obtain ⟨r, hr, hth, rfl⟩ := corrEmit_eq_some hf
      obtain ⟨s, hs, hsth, rfl⟩ := corrEmit_eq_some hg
      have hinj : ∀ a b : ℕ, a < (numericCols df).length →
          b < (numericCols df).length →
          ((numericCols df).getD a ("", [])).1 = ((numericCols df).getD b ("", [])).1 →
          a = b := by
        intro a b ha hb hab
        by_contra hne₂
        exact getD_fst_ne hnd ha hb hne₂ hab
      rcases hsame with ⟨h1, h2⟩ | ⟨h1, h2⟩
      · have e1 : p.1 = q.1 := hinj _ _ hpi hqi h1
        have e2 : p.2 = q.2 := hinj _ _ (by omega) (by omega) h2
        exact hne (Prod.ext e1 e2)
      · have e1 : p.1 = q.2 := hinj _ _ hpi (by omega) h1
        have e2 : p.2 = q.1 := hinj _ _ (by omega) hqi h2
        omega
  · intro i j hj hi r hr hth
    exact mem_compute_correlations.mpr ⟨i, j, hj, hi, r, hr, hth, rfl⟩
  · intro f hf
    obtain ⟨i, j, hj, hi, r, hr, hth, rfl⟩ := mem_compute_correlations.mp hf
    exact ⟨r, hth, rfl, rfl⟩

/-- C4 witness: on a table with numeric columns `a`, `b` and a text column
`t`, and a correlation oracle returning `0.95` everywhere, the detector
emits exactly the finding `(b, a)` with strength `"Very Strong"`; the
instantiation also exercises the membership direction of the theorem. -/
theorem compute_correlations_spec_witness :
    { col_1 := "b", col_2 := "a", correlation := round2 (19/20),
      strength := if (9:ℚ)/10 < |(19:ℚ)/20| then "Very Strong" else "Strong" }
      ∈ compute_correlations (fun _ _ => some (19/20))
        [⟨"a", ColData.num [some 1, some 2]⟩, ⟨"b", ColData.num [some 2, some 4]⟩,
         ⟨"t", ColData.text [some "x"]⟩] :=
  (compute_correlations_spec (fun _ _ => some (19/20))
      [⟨"a", ColData.num [some 1, some 2]⟩, ⟨"b", ColData.num [some 2, some 4]⟩,
       ⟨"t", ColData.text [some "x"]⟩]
      (by decide)).2.2.2.1 1 0 (by decide) (by decide) (19/20) rfl
      (by rw [abs_of_pos (by norm_num : (0:ℚ) < 19/20)]; norm_num)

theorem profileColumn_fst_name (stats : List (String × ColDiagnostics)) (c : Col) :
    (profileColumn stats c).1.name = c.name := by
  rcases c with ⟨name, data⟩
  rcases data with v | v
  · cases hnm : nonMissing v <;> cases hdf : dictFind name stats <;>
      simp [profileColumn, hnm, hdf]
  · rfl

theorem dictFind_dictInsert {α : Type} (k k₂ : String) (v : α) (l : List (String × α)) :
    dictFind k (dictInsert k₂ v l) = if k₂ = k then some v else dictFind k l := by
  induction l with
  | nil => simp [dictInsert, dictFind]
  | cons hd tl ih =>
    rcases hd with ⟨k₁, v₁⟩
    by_cases h1 : k₁ = k₂ <;> by_cases h2 : k₂ = k <;> by_cases h3 : k₁ = k <;>
      simp_all [dictInsert, dictFind]

theorem dictFind_foldl_insert {γ : Type} (g : String × List (Option ℚ) → γ)
    (l : List (String × List (Option ℚ))) (init : List (String × γ)) (k : String) (d : γ)
    (h : dictFind k (l.foldl (fun acc nv => dictInsert nv.1 (g nv) acc) init) = some d) :
    (∃ nv ∈ l, nv.1 = k ∧ d = g nv) ∨ dictFind k init = some d := by
  induction l generalizing init with
  | nil => exact Or.inr h
  | cons hd tl ih =>
    rcases ih _ h with ⟨nv, hnv, hk, hdv⟩ | hfind
    · exact Or.inl ⟨nv, List.mem_cons_of_mem _ hnv, hk, hdv⟩
    · rw [dictFind_dictInsert] at hfind
      by_cases hh : hd.1 = k
      · rw [if_pos hh] at hfind
        exact Or.inl ⟨hd, List.mem_cons_self _ _, hh, (Option.some.inj hfind).symm⟩
      · rw [if_neg hh] at hfind
        exact Or.inr hfind

theorem dictInsert_of_not_mem {γ : Type} {k : String} (v : γ) {l : List (String × γ)}
    (h : k ∉ l.map Prod.fst) : dictInsert k v l = l ++ [(k, v)] := by
  induction l with
  | nil => rfl
  | cons hd tl ih =>
    have h1 : hd.1 ≠ k := fun hc => h (by simp [hc])
    have h2 : k ∉ tl.map Prod.fst := fun hc => h (by simp [hc])
    simp [dictInsert, h1, ih h2]

theorem foldl_dictInsert_eq_append {γ : Type} (g : String × List (Option ℚ) → γ)
    (l : List (String × List (Option ℚ))) (init : List (String × γ))
    (hdis : ∀ nv ∈ l, nv.1 ∉ init.map Prod.fst)
    (hnd : (l.map Prod.fst).Nodup) :
    l.foldl (fun acc nv => dictInsert nv.1 (g nv) acc) init
      = init ++ l.map (fun nv => (nv.1, g nv)) := by
  induction l generalizing init with
  | nil => simp
  | cons hd tl ih =>
    obtain ⟨hhd, htl⟩ : hd.1 ∉ tl.map Prod.fst ∧ (tl.map Prod.fst).Nodup := by
      rw [List.map_cons, List.nodup_cons] at hnd
      exact hnd
    rw [List.foldl_cons, dictInsert_of_not_mem (g hd) (hdis hd (List.mem_cons_self _ _)),
      ih (init ++ [(hd.1, g hd)])
        (by
          intro nv hnv
          simp only [List.map_append, List.mem_append, List.map_cons, List.map_nil,
            List.mem_singleton, not_or]
          exact ⟨fun hc => hdis nv (List.mem_cons_of_mem _ hnv) hc,
            fun hc => hhd (hc ▸ List.mem_map_of_mem Prod.fst hnv)⟩)
        htl]
    simp

theorem dictFind_map_of_nodup {γ : Type} (g : String × List (Option ℚ) → γ)
    {l : List (String × List (Option ℚ))} (hnd : (l.map Prod.fst).Nodup)
    {k : String} {v : List (Option ℚ)} (hmem : (k, v) ∈ l) :
    dictFind k (l.map (fun nv => (nv.1, g nv))) = some (g (k, v)) := by
  induction l with
  | nil => cases hmem
  | cons hd tl ih =>
    obtain ⟨hhd, htl⟩ : hd.1 ∉ tl.map Prod.fst ∧ (tl.map Prod.fst).Nodup := by
      rw [List.map_cons, List.nodup_cons] at hnd
      exact hnd
    rcases List.mem_cons.mp hmem with heq | hmem₂
    · subst heq
      simp [dictFind]
    · have hne : hd.1 ≠ k := by
        intro hc
        exact hhd (hc ▸ List.mem_map_of_mem Prod.fst hmem₂)
      simp only [List.map_cons, dictFind, if_neg hne]
      exact ih htl hmem₂

theorem numericCols_names_sublist (df : Table) :
    ((numericCols df).map Prod.fst).Sublist (df.map Col.name) := by
  induction df with
  | nil => simp [numericCols]
  | cons c tl ih =>
    rcases c with ⟨name, data⟩
    rcases data with v | v
    · simpa [numericCols] using ih.cons₂ name
    · simpa [numericCols] using ih.cons name

theorem mem_numericCols {df : Table} {c : Col} {v : List (Option ℚ)}
    (hc : c ∈ df) (hdata : c.data = ColData.num v) : (c.name, v) ∈ numericCols df :=
  List.mem_filterMap.mpr ⟨c, hc, by rw [hdata]⟩

/-- With distinct column names, the `numeric_columns` dict of the engine
maps each numeric column name to the diagnostics of that very column. -/
theorem dictFind_stats (sk : List ℚ → ℚ)
    (corrO : List (Option ℚ) → List (Option ℚ) → Option ℚ) {df : Table}
    (hnd : (df.map Col.name).Nodup) {name : String} {v : List (Option ℚ)}
    (hmem : (name, v) ∈ numericCols df) :
    dictFind name (run_statistical_analysis sk corrO df).1 =
      some { outliers := detect_outliers_iqr v, skewness := analyze_skewness sk v,
             variability := analyze_variability v } := by
  have hnc : ((numericCols df).map Prod.fst).Nodup :=
    hnd.sublist (numericCols_names_sublist df)
  unfold run_statistical_analysis
  dsimp only
  rw [foldl_dictInsert_eq_append _ _ [] (by simp) hnc, List.nil_append]
  exact dictFind_map_of_nodup _ hnc hmem

/-- C8: the report has exactly one `ColumnProfile` per table column, in
the table column order (the profile names list the column names in
order). -/
theorem analyze_dataset_columns (sk : List ℚ → ℚ)
    (corrO : List (Option ℚ) → List (Option ℚ) → Option ℚ)
    (memKB : ℚ) (df : Table) (filename : String) :
    (analyze_dataset sk corrO memKB df filename).columns.length = df.length
    ∧ (analyze_dataset sk corrO memKB df filename).columns.map ColumnProfile.name
        = df.map Col.name := by
  unfold analyze_dataset
  dsimp only
  refine ⟨by simp, ?_⟩
  rw [List.map_map, List.map_map]
  exact List.map_congr_left (fun c _ => profileColumn_fst_name _ c)

theorem skew_class_mem (sk : List ℚ → ℚ) (xs : List (Option ℚ)) :
    (analyze_skewness sk xs).classification ∈
      (["Unknown", "Symmetric", "Moderately Right-Skewed",
        "Highly Right-Skewed (Long Tail)", "Highly Left-Skewed",
        "Moderately Left-Skewed"] : List String) := by
  unfold analyze_skewness
  by_cases he : xs.length = 0
  · simp [he]
  · rw [if_neg he]
    cases hps : pandasSkew sk xs
    · simp
    · dsimp only
      unfold classify_skew
      split_ifs <;> simp

theorem var_class_mem (xs : List (Option ℚ)) :
    (analyze_variability xs).classification ∈
      (["Unknown", "Moderate Variability", "Unknown (Mean is 0)",
        "Low Variability (Stable)", "High Variability (Volatile)"] : List String) := by
  unfold analyze_variability
  dsimp only
  split_ifs <;> simp

theorem detect_outliers_count_nil {xs : List (Option ℚ)} (hv : nonMissing xs = []) :
    (detect_outliers_iqr xs).count = 0 := by
  unfold detect_outliers_iqr
  by_cases he : xs.length = 0
  · simp [he]
  · rw [hv]
    simp [he, pdQuantile]

theorem stats_values (sk : List ℚ → ℚ)
    (corrO : List (Option ℚ) → List (Option ℚ) → Option ℚ) {df : Table}
    {name : String} {d : ColDiagnostics}
    (h : dictFind name (run_statistical_analysis sk corrO df).1 = some d) :
    ∃ nv ∈ numericCols df,
      d = { outliers := detect_outliers_iqr nv.2, skewness := analyze_skewness sk nv.2,
            variability := analyze_variability nv.2 } := by
  unfold run_statistical_analysis at h
  dsimp only at h
  rcases dictFind_foldl_insert _ _ _ _ _ h with ⟨nv, hnv, _, hdv⟩ | hbad
  · exact ⟨nv, hnv, hdv⟩
  · simp [dictFind] at hbad

/-- C10 (implicit claim): in every emitted report, a profile's `skewness`
and `variability_cv` fields hold classification label strings — each is
either `None` or one of the fixed label strings of the engine — never the
rounded numeric skew or CV values, which the profiler discards. -/
theorem analyze_dataset_label_fields (sk : List ℚ → ℚ)
    (corrO : List (Option ℚ) → List (Option ℚ) → Option ℚ)
    (memKB : ℚ) (df : Table) (filename : String) :
    ∀ p ∈ (analyze_dataset sk corrO memKB df filename).columns,
      (p.skewness = Option.none ∨
        ∃ s, p.skewness = some s ∧
          s ∈ (["Unknown", "Symmetric", "Moderately Right-Skewed",
                "Highly Right-Skewed (Long Tail)", "Highly Left-Skewed",
                "Moderately Left-Skewed"] : List String)) ∧
      (p.variability_cv = Option.none ∨
        ∃ s, p.variability_cv = some s ∧
          s ∈ (["Unknown", "Moderate Variability", "Unknown (Mean is 0)",
                "Low Variability (Stable)", "High Variability (Volatile)"] :
                List String)) := by
  intro p hp
  unfold analyze_dataset at hp
  dsimp only at hp
  rw [List.map_map] at hp
  obtain ⟨c, hc, rfl⟩ := List.mem_map.mp hp
  rcases c with ⟨name, data⟩
  rcases data with v | v
  · cases hdf : dictFind name (run_statistical_analysis sk corrO df).1 with
    | none =>
      cases hnm : nonMissing v <;>
        simp [profileColumn, Function.comp, hnm, hdf]
    | some d =>
      obtain ⟨nv, _, rfl⟩ := stats_values sk corrO hdf
      cases hnm : nonMissing v <;>
        simp [profileColumn, Function.comp, hnm, hdf] <;>
        exact ⟨by simpa using skew_class_mem sk nv.2, by simpa using var_class_mem nv.2⟩
  · simp [profileColumn, Function.comp]

/-- C10 witness: the first profile of a concrete report carries the label
`"Unknown"` (a classification string) in its skewness field. -/
theorem analyze_dataset_label_fields_witness :
    ((analyze_dataset (fun _ => 0) (fun _ _ => Option.none) 0
        [⟨"a", ColData.num [some 1, some 2]⟩] "t.csv").columns.get
        ⟨0, by simp [analyze_dataset]⟩).skewness = Option.none ∨
      ∃ s, ((analyze_dataset (fun _ => 0) (fun _ _ => Option.none) 0
        [⟨"a", ColData.num [some 1, some 2]⟩] "t.csv").columns.get
        ⟨0, by simp [analyze_dataset]⟩).skewness = some s ∧
        s ∈ (["Unknown", "Symmetric", "Moderately Right-Skewed",
              "Highly Right-Skewed (Long Tail)", "Highly Left-Skewed",
              "Moderately Left-Skewed"] : List String) :=
  (analyze_dataset_label_fields (fun _ => 0) (fun _ _ => Option.none) 0
    [⟨"a", ColData.num [some 1, some 2]⟩] "t.csv" _
    (List.get_mem _ _ _)).1

theorem map_zip_self {α β : Type} (f : α → β) (l : List α) :
    (l.map f).zip l = l.map (fun x => (f x, x)) := by
  induction l with
  | nil => rfl
  | cons hd tl ih => simp [ih]

/-- C1: for every well-formed table (equal-length columns, distinct
names — both guaranteed by CSV ingestion — with any mix of numeric, text,
empty, all-missing or constant columns) the profiler is total (the
embedding is a plain function: no exception path exists) and returns a
complete report: one profile per column in order, the summary counts, a
null narrative; a text column is degraded to the default diagnostic
fields, and an all-missing numeric column yields null mean/min/max and
zero outliers rather than failing. -/
theorem analyze_dataset_total (sk : List ℚ → ℚ)
    (corrO : List (Option ℚ) → List (Option ℚ) → Option ℚ)
    (memKB : ℚ) (df : Table) (filename : String) (hwf : wellFormed df) :
    (analyze_dataset sk corrO memKB df filename).columns.length = df.length
    ∧ (analyze_dataset sk corrO memKB df filename).summary.total_rows = nRows df
    ∧ (analyze_dataset sk corrO memKB df filename).summary.total_columns = df.length
    ∧ (analyze_dataset sk corrO memKB df filename).ai_analysis = Option.none
    ∧ ∀ pc ∈ (analyze_dataset sk corrO memKB df filename).columns.zip df,
        pc.1.name = pc.2.name
        ∧ (∀ tv, pc.2.data = ColData.text tv →
            pc.1.mean = Option.none ∧ pc.1.min = Option.none ∧
            pc.1.max = Option.none ∧ pc.1.outliers_count = 0 ∧
            pc.1.skewness = Option.none ∧ pc.1.variability_cv = Option.none)
        ∧ (∀ nv, pc.2.data = ColData.num nv → nonMissing nv = [] →
            pc.1.mean = Option.none ∧ pc.1.min = Option.none ∧
            pc.1.max = Option.none ∧ pc.1.outliers_count = 0) := by
  refine ⟨by simp [analyze_dataset], rfl, rfl, rfl, ?_⟩
  intro pc hpc
  unfold analyze_dataset at hpc
  dsimp only at hpc
  rw [List.map_map, map_zip_self] at hpc
  obtain ⟨c, hc, rfl⟩ := List.mem_map.mp hpc
  refine ⟨profileColumn_fst_name _ _, ?_, ?_⟩
  · intro tv htv
    rcases c with ⟨name, data⟩
    cases htv
    simp [profileColumn, Function.comp]
  · intro nv hnv hnm
    rcases c with ⟨name, data⟩
    cases hnv
    have hdf := dictFind_stats sk corrO hwf.2 (mem_numericCols hc rfl)
    simp [profileColumn, Function.comp, hnm, hdf, detect_outliers_count_nil hnm]

/-- C1 witness: a two-column table with one text column and one all-missing
numeric column is well-formed and profiled completely. -/
theorem analyze_dataset_total_witness :
    (analyze_dataset (fun _ => 0) (fun _ _ => Option.none) 0
      [⟨"t", ColData.text [some "x", Option.none]⟩,
       ⟨"m", ColData.num [Option.none, Option.none]⟩] "t.csv").columns.length =
      ([⟨"t", ColData.text [some "x", Option.none]⟩,
        ⟨"m", ColData.num [Option.none, Option.none]⟩] : Table).length :=
  (analyze_dataset_total (fun _ => 0) (fun _ _ => Option.none) 0
    [⟨"t", ColData.text [some "x", Option.none]⟩,
     ⟨"m", ColData.num [Option.none, Option.none]⟩] "t.csv"
    (by unfold wellFormed; exact ⟨by decide, by decide⟩)).1

theorem profileColumn_alerts (sk : List ℚ → ℚ)
    (corrO : List (Option ℚ) → List (Option ℚ) → Option ℚ) {df : Table}
    (hnd : (df.map Col.name).Nodup) {c : Col} (hc : c ∈ df) :
    (profileColumn (run_statistical_analysis sk corrO df).1 c).2 = columnAlerts c := by
  rcases c with ⟨name, data⟩
  rcases data with v | v
  · have hdf := dictFind_stats sk corrO hnd (mem_numericCols hc rfl)
    cases hnm : nonMissing v <;> simp [profileColumn, columnAlerts, hdf, hnm]
  · rfl

/-- C9 (amended): under distinct column names the alert list is exactly
the per-column alerts in table column order — for each numeric column the
outlier alert (emitted when the outlier percentage exceeds 5.0) before the
volatility alert (emitted when the volatility label contains `"High"`) —
followed by one correlation alert per finding in correlation-detection
order, each phrased as
`"Strong Correlation (<r>) between \x27<A>\x27 and \x27<B>\x27. Check for multicollinearity."`
(the source string carries the trailing sentence the claim omits). -/
theorem analyze_dataset_alerts (sk : List ℚ → ℚ)
    (corrO : List (Option ℚ) → List (Option ℚ) → Option ℚ)
    (memKB : ℚ) (df : Table) (filename : String)
    (hnd : (df.map Col.name).Nodup) :
    (analyze_dataset sk corrO memKB df filename).alerts =
      df.flatMap columnAlerts ++ (compute_correlations corrO df).map corrAlert := by
  unfold analyze_dataset
  dsimp only
  congr 1
  rw [List.map_map, List.flatMap_def]
  congr 1
  exact List.map_congr_left (fun c hc => profileColumn_alerts sk corrO hnd hc)

/-- C9 witness: on a concrete two-numeric-column table (`b = 2·a`, whose
Pearson coefficient is exactly `1.0`, the oracle value) the alert list is
the per-column alerts followed by the correlation alerts. -/
theorem analyze_dataset_alerts_witness :
    (analyze_dataset (fun _ => 0) (fun _ _ => some 1) 0
        [⟨"a", ColData.num [some 1, some 2]⟩, ⟨"b", ColData.num [some 2, some 4]⟩]
        "t.csv").alerts =
      ([⟨"a", ColData.num [some 1, some 2]⟩,
        ⟨"b", ColData.num [some 2, some 4]⟩] : Table).flatMap columnAlerts ++
        (compute_correlations (fun _ _ => some 1)
          [⟨"a", ColData.num [some 1, some 2]⟩,
           ⟨"b", ColData.num [some 2, some 4]⟩]).map corrAlert :=
  analyze_dataset_alerts (fun _ => 0) (fun _ _ => some 1) 0
    [⟨"a", ColData.num [some 1, some 2]⟩, ⟨"b", ColData.num [some 2, some 4]⟩]
    "t.csv" (by decide)

/-- C9 counterexample: on the table with numeric columns `a = [1, 2]` and
`b = [2, 4]` — where `b` is exactly `2·a`, so the true Pearson coefficient
`DataFrame.corr()` computes is exactly `1.0` and the oracle value is the
realized matrix entry — the only alert the profiler emits is the
correlation alert, whose text ends with `". Check for multicollinearity."`;
it is not the string `"Strong Correlation (1.0) between \x27b\x27 and
\x27a\x27"` the claim phrases it as.  (Neither column triggers an outlier
or volatility alert: both have zero outliers and label
`"Moderate Variability"`.) -/
theorem alerts_phrasing_counterexample :
    (analyze_dataset (fun _ => 0) (fun _ _ => some 1) 0
        [⟨"a", ColData.num [some 1, some 2]⟩, ⟨"b", ColData.num [some 2, some 4]⟩]
        "t.csv").alerts =
      ["Strong Correlation (1.0) between \x27b\x27 and \x27a\x27. Check for multicollinearity."]
    ∧ ("Strong Correlation (1.0) between \x27b\x27 and \x27a\x27. Check for multicollinearity."
        : String) ≠
      "Strong Correlation (1.0) between \x27b\x27 and \x27a\x27" := by
  refine ⟨?_, by decide⟩
  have h1a : detect_outliers_iqr [some 1, some 2] =
      { count := 0, percentage := 0, lower_bound := PyVal.num (1/2),
        upper_bound := PyVal.num (5/2) } := by
    have hq1 : pdQuantile (1/4) [(1:ℚ), 2] = some (5/4) := by
      norm_num [pdQuantile, sortQ, insertAsc]
    have hq3 : pdQuantile (3/4) [(1:ℚ), 2] = some (7/4) := by
      norm_num [pdQuantile, sortQ, insertAsc]
    unfold detect_outliers_iqr
    have hnm : nonMissing [some 1, some 2] = [(1:ℚ), 2] := rfl
    simp only [hnm, hq1, hq3]
    norm_num [round2, round_eq, List.filter_cons, decide_eq_true_eq]
  have h1b : detect_outliers_iqr [some 2, some 4] =
      { count := 0, percentage := 0, lower_bound := PyVal.num 1,
        upper_bound := PyVal.num 5 } := by
    have hq1 : pdQuantile (1/4) [(2:ℚ), 4] = some (5/2) := by
      norm_num [pdQuantile, sortQ, insertAsc]
    have hq3 : pdQuantile (3/4) [(2:ℚ), 4] = some (7/2) := by
      norm_num [pdQuantile, sortQ, insertAsc]
    unfold detect_outliers_iqr
    have hnm : nonMissing [some 2, some 4] = [(2:ℚ), 4] := rfl
    simp only [hnm, hq1, hq3]
    norm_num [round2, round_eq, List.filter_cons, decide_eq_true_eq]
  have h2a : analyze_skewness (fun _ => 0) [some 1, some 2] =
      { value := Option.none, classification := "Unknown" } := by
    norm_num [analyze_skewness, pandasSkew]
  have h2b : analyze_skewness (fun _ => 0) [some 2, some 4] =
      { value := Option.none, classification := "Unknown" } := by
    norm_num [analyze_skewness, pandasSkew]
  have hr1 : rnd2sqrt (1/2) = 71/100 := by
    norm_num [rnd2sqrt, roundSqrt]
    simp
    norm_num [Nat.sqrt]
  have hr2 : rnd2sqrt 2 = 141/100 := by
    norm_num [rnd2sqrt, roundSqrt]
    simp
    norm_num [Nat.sqrt]
  have hr3 : rnd2sqrt (2/9) = 47/100 := by
    norm_num [rnd2sqrt, roundSqrt]
    simp
    norm_num [Nat.sqrt]
  have h3a : analyze_variability [some 1, some 2] =
      { std_dev := PyVal.num (71/100), cv := PyVal.num (47/100),
        classification := "Moderate Variability" } := by
    unfold analyze_variability
    norm_num [meanQ, sampleVar, m2Q, hr1, hr3]
  have h3b : analyze_variability [some 2, some 4] =
      { std_dev := PyVal.num (141/100), cv := PyVal.num (47/100),
        classification := "Moderate Variability" } := by
    unfold analyze_variability
    norm_num [meanQ, sampleVar, m2Q, hr2, hr3]
  have hstats : run_statistical_analysis (fun _ => 0) (fun _ _ => some 1)
      [⟨"a", ColData.num [some 1, some 2]⟩, ⟨"b", ColData.num [some 2, some 4]⟩] =
      ([("a", { outliers := { count := 0, percentage := 0, lower_bound := PyVal.num (1/2),
                              upper_bound := PyVal.num (5/2) },
                skewness := { value := Option.none, classification := "Unknown" },
                variability := { std_dev := PyVal.num (71/100), cv := PyVal.num (47/100),
                                 classification := "Moderate Variability" } }),
        ("b", { outliers := { count := 0, percentage := 0, lower_bound := PyVal.num 1,
                              upper_bound := PyVal.num 5 },
                skewness := { value := Option.none, classification := "Unknown" },
                variability := { std_dev := PyVal.num (141/100), cv := PyVal.num (47/100),
                                 classification := "Moderate Variability" } })],
       [{ col_1 := "b", col_2 := "a", correlation := 1, strength := "Very Strong" }]) := by
    unfold run_statistical_analysis compute_correlations corrEmit numericCols lowerTriPairs
    simp [h1a, h1b, h2a, h2b, h3a, h3b, dictInsert, List.getD, lowerTriPairs,
      List.range_succ, Function.comp, List.filterMap_cons]
    norm_num [round2, round_eq]
  unfold analyze_dataset
  rw [hstats]
  have hsc : strContains "Moderate Variability" "High" = false := by decide
  simp only [List.map_cons, List.map_nil, profileColumn, dictFind, List.flatten]
  norm_num [hsc, corrAlert, fmtQ, abs_one]
  decide

/-- C5 witness: skew value `0` falls in the symmetric bucket. -/
theorem classify_skew_buckets_witness : classify_skew 0 = "Symmetric" :=
  (classify_skew_buckets 0).2.2.2.2.mpr ⟨by norm_num, by norm_num⟩

/-- C3 witness: a concrete 10-row report with no columns reports sample
size 10. -/
theorem calculate_data_confidence_spec_witness :
    (calculate_data_confidence
      { filename := "t.csv",
        summary := { total_rows := 10, total_columns := 2, file_size_kb := 0,
                     duplicate_rows := 0, memory_usage_kb := 0 },
        columns := [], alerts := [], ai_analysis := Option.none }).sample_size = 10 :=
  (calculate_data_confidence_spec
    { filename := "t.csv",
      summary := { total_rows := 10, total_columns := 2, file_size_kb := 0,
                   duplicate_rows := 0, memory_usage_kb := 0 },
      columns := [], alerts := [], ai_analysis := Option.none }).1

/-- C8 witness: a one-column table yields a one-profile report. -/
theorem analyze_dataset_columns_witness :
    (analyze_dataset (fun _ => 0) (fun _ _ => Option.none) 0
      [⟨"a", ColData.num [some 1]⟩] "t.csv").columns.length =
      ([⟨"a", ColData.num [some 1]⟩] : Table).length :=
  (analyze_dataset_columns (fun _ => 0) (fun _ _ => Option.none) 0
    [⟨"a", ColData.num [some 1]⟩] "t.csv").1

end Aionyx
